import Mathlib

/-!
Verification of the Buhlmann ZH-L16C dive-profile engine (src/src/jabai/profile.py).

The Python source computes everything with IEEE floats; this development models
those numbers as exact rationals (and as real numbers where the source applies
transcendental functions such as exp, log and fractional powers).  Python
operations that raise an exception (ZeroDivisionError, ValueError from log(0),
IndexError) are modelled by Option/Except values, as noted at each definition.
-/

/-! ## Gas mixtures (class Gas, profile.py lines 122-176) -/

/-- Gas mixture: oxygen and helium integer percentages, nitrogen derived. -/
structure Gas where
  o2 : ℤ
  he : ℤ
deriving DecidableEq

/-- Derived nitrogen percentage, `self._N2 = 100 - o2 - he`. -/
def Gas.n2 (g : Gas) : ℤ := 100 - g.o2 - g.he

/-- Oxygen partial pressure at a depth, `Gas.ppO2`: `pabs * self._O2 / 100`
with `pabs = depth / 10 + 1`. -/
def Gas.ppO2 (g : Gas) (depth : ℚ) : ℚ := (depth / 10 + 1) * (g.o2 : ℚ) / 100

/-- Maximum operating depth, `Gas.mod`: `10 * ((pp_o2 / (self._O2 / 100)) - 1)`.
For o2 = 0 the Python expression raises ZeroDivisionError; with total rational
division this definition returns -10 there; no claim touches an oxygen-free mix. -/
def Gas.mod (g : Gas) (ppo2 : ℚ) : ℚ := 10 * (ppo2 / ((g.o2 : ℚ) / 100) - 1)

/-! ## Tanks (class Tank, profile.py lines 179-191) -/

/-- Tank: a gas mixture plus cylinder size and starting pressure. -/
structure Tank where
  gas : Gas
  size : ℚ
  start_pressure : ℚ
deriving DecidableEq

/-! ## Time values (class Time, profile.py lines 54-84) -/

/-- Time value holding both representations, mirroring class `Time`
(`_unit`, `_minutes`, `_seconds`). -/
structure TimeV where
  unit : String
  minutes : ℚ
  seconds : ℤ
deriving DecidableEq

/-- Time constructed with unit "m": `_seconds = int(round(time * 60, 0))`.
Python round is half-even on floats; the floor-based rounding below agrees with
it except on exact .5 ties, which no claim exercises. -/
def timeOfMinutes (m : ℚ) : TimeV := ⟨"m", m, Int.floor (m * 60 + 1 / 2)⟩

/-- Time constructed with unit "s": `_minutes = seconds / 60`. -/
def timeOfSeconds (s : ℤ) : TimeV := ⟨"s", (s : ℚ) / 60, s⟩

/-! ## Configuration (dataclass Parameters, profile.py lines 87-119) -/

/-- Configuration object mirroring dataclass `Parameters` field for field. -/
structure Params where
  last_stop_depth : ℚ
  stop_depth_incr : ℚ
  safety_stop_depth : ℚ
  safety_stop_duration : ℚ
  v_asc : ℚ
  v_desc : ℚ
  own_descent_sac : ℚ
  own_bottom_sac : ℚ
  own_ascent_sac : ℚ
  buddy_ascent_sac : ℚ
  gf_high : ℚ
  gf_low : ℚ
  calc_ascent : Bool
  calc_descent : Bool
  deco_stops : Bool
  safety_stop : Bool
  gas_switch : String
  gas_switch_duration : ℚ
  dt : TimeV
deriving DecidableEq

/-- Default simulation step, `dt: Time = Time(time=5, unit="s")`. -/
def defaultTimeStep : TimeV := ⟨"s", 5 / 60, 5⟩

/-- Default Parameters values (profile.py lines 89-113), in field order:
last_stop_depth, stop_depth_incr, safety_stop_depth, safety_stop_duration,
v_asc, v_desc, own_descent_sac, own_bottom_sac, own_ascent_sac,
buddy_ascent_sac, gf_high, gf_low, calc_ascent, calc_descent, deco_stops,
safety_stop, gas_switch, gas_switch_duration, dt. -/
def defaultParams : Params :=
  ⟨3, 3, 5, 3, 10, 20, 20, 20, 17, 17, 1, 1, true, true, true, true, "depth", 60,
    defaultTimeStep⟩

/-! ## Gas-switch target depth (`Profile._calculate_next_gas_stop`, lines 673-679) -/

/-- Loop body of `_calculate_next_gas_stop` (lines 674-678): the deepest MOD, at
the given ppO2 reference, among tanks whose MOD is strictly shallower than the
current depth; 0 when there is none. -/
def nextGasStopCandidate (tanks : List Gas) (depth ppo2 : ℚ) : ℚ :=
  tanks.foldl
    (fun out t =>
      if Gas.mod t ppo2 < depth then
        (if out < Gas.mod t ppo2 then Gas.mod t ppo2 else out)
      else out)
    0

/-- Line 679 compares the Parameters object itself to the string "depth":
`self._params == 'depth'`.  A dataclass __eq__ returns NotImplemented for a
non-dataclass operand and Python then falls back to identity, so the comparison
is False for every Parameters instance. -/
def paramsEqDepthStr (_p : Params) : Bool := false

/-- The gas-switch target depth as the source computes it (lines 673-679):
`return out if self._params == 'depth' else 0.`. -/
def calculate_next_gas_stop (tanks : List Gas) (p : Params) (depth ppo2 : ℚ) : ℚ :=
  if paramsEqDepthStr p then nextGasStopCandidate tanks depth ppo2 else 0

/-! ## Tank selection (`Profile._select_tank`, lines 664-671) -/

/-- Mirror of `_select_tank`: state is the pair (tank, max_o2) initialised to
(0, 0); the loop takes the index of each tank with `t.gas.O2 > max_o2` and
`t.gas.mod(pp_o2) >= depth`.  The source never assigns to max_o2, so the second
state component stays 0, exactly as in the Python. -/
def select_tank (tanks : List Gas) (depth ppo2 : ℚ) : ℕ :=
  (tanks.enum.foldl
    (fun s it =>
      if s.2 < it.2.o2 ∧ depth ≤ Gas.mod it.2 ppo2 then (it.1, s.2) else s)
    ((0, 0) : ℕ × ℤ)).1

/-! ## Theorems for claims C1 and C5 -/

/-- C1: the source never computes a nonzero next mandatory gas-switch depth.
Because line 679 compares the Parameters object (not its gas_switch field) to
the string "depth", `_calculate_next_gas_stop` returns 0 for every policy,
including the depth-triggered one; yet its loop had already computed the
correct candidate, 22 m, for the scenario-C tank set (Air + EAN50, 45 m,
1.6 bar ppO2 reference). -/
theorem nextGasStop_always_zero :
    (∀ tanks p depth ppo2, calculate_next_gas_stop tanks p depth ppo2 = 0) ∧
    nextGasStopCandidate [⟨21, 0⟩, ⟨50, 0⟩] 45 (8 / 5) = 22 := by
  constructor
  · intro tanks p depth ppo2
    simp [calculate_next_gas_stop, paramsEqDepthStr]
  · norm_num [nextGasStopCandidate, Gas.mod, List.foldl]

/-- C5: tank selection does not pick the highest-oxygen admissible tank.  With
tanks [EAN50, Air] at depth 0 both tanks are admissible at the 1.6 bar ppO2
reference, yet `_select_tank` returns index 1 (Air, 21% O2) because its max_o2
accumulator is never updated, while the highest-oxygen admissible tank is
index 0 (EAN50, 50% O2). -/
theorem selectTank_not_highest_o2 :
    select_tank [⟨50, 0⟩, ⟨21, 0⟩] 0 (8 / 5) = 1 ∧
    (0 : ℚ) ≤ Gas.mod ⟨50, 0⟩ (8 / 5) ∧
    Gas.o2 ⟨21, 0⟩ < Gas.o2 ⟨50, 0⟩ := by
  refine ⟨?_, by norm_num [Gas.mod], by decide⟩
  norm_num [select_tank, Gas.mod, List.enum, List.enumFrom, List.foldl]

/-! ## ZH-L16C ceiling coefficients (profile.py lines 11-26) -/

/-- ZH-L16C nitrogen a coefficients. -/
def aN2 : Fin 16 → ℚ := fun i =>
  [1.1696, 1.0000, 0.8618, 0.7562, 0.6200, 0.5043, 0.4410, 0.4000, 0.3750, 0.3500,
   0.3295, 0.3065, 0.2835, 0.2610, 0.2480, 0.2327].getD i 0

/-- ZH-L16C nitrogen b coefficients. -/
def bN2 : Fin 16 → ℚ := fun i =>
  [0.5578, 0.6514, 0.7222, 0.7825, 0.8126, 0.8434, 0.8693, 0.8910, 0.9092, 0.9222,
   0.9319, 0.9403, 0.9477, 0.9544, 0.9602, 0.9653].getD i 0

/-- ZH-L16C helium a coefficients. -/
def aHe : Fin 16 → ℚ := fun i =>
  [1.6189, 1.3830, 1.1919, 1.0458, 0.9220, 0.8205, 0.7305, 0.6502, 0.5950, 0.5545,
   0.5333, 0.5189, 0.5181, 0.5176, 0.5172, 0.5119].getD i 0

/-- ZH-L16C helium b coefficients. -/
def bHe : Fin 16 → ℚ := fun i =>
  [0.4770, 0.5747, 0.6527, 0.7223, 0.7582, 0.7957, 0.8279, 0.8553, 0.8757, 0.8903,
   0.8997, 0.9073, 0.9122, 0.9171, 0.9217, 0.9267].getD i 0

/-- Water vapour pressure constant, `pw = 0.0567` (line 36). -/
def pwQ : ℚ := 0.0567

/-! ## Compartment-load seeding (IntegrationPoint.__init__, lines 224-233) -/

/-- Initial nitrogen loads: `np.full(16, 0.79 * (1 - pw))`. -/
def initLoadN2 : Fin 16 → ℚ := fun _ => 0.79 * (1 - pwQ)

/-- Initial helium loads: `np.zeros(16)`. -/
def initLoadHe : Fin 16 → ℚ := fun _ => 0

/-! ## Ceiling computation (`Profile._calculate_ceilings`, lines 563-588) -/

/-- Deepest-waypoint ambient pressure, lines 572-575: `p_max = 0.` followed by
`p_max = wp.depth if wp.depth > p_max else p_max` over the realized waypoints,
then `p_max = (p_max / 10) + 1`. -/
def pMaxOf (wpDepths : List ℚ) : ℚ :=
  wpDepths.foldl (fun acc d => if acc < d then d else acc) 0 / 10 + 1

/-- Per-compartment ceiling formula, lines 577-588: load-weighted a and b
coefficients, the interpolated gradient factor, and the depth conversion
`(out - 1) * 10`.  The elementwise numpy divisions by (load_n2 + load_he) do
not raise in Python (numpy yields nan with a warning); they are modelled with
total rational division and every claim that depends on them carries the
positive-load hypothesis. -/
def ceilingsFun (gfHigh gfLow pMax pAmb : ℚ) (loadN2 loadHe : Fin 16 → ℚ) :
    Fin 16 → ℚ := fun i =>
  let a := (aN2 i * loadN2 i + aHe i * loadHe i) / (loadN2 i + loadHe i)
  let b := (bN2 i * loadN2 i + bHe i * loadHe i) / (loadN2 i + loadHe i)
  let pComp := loadN2 i + loadHe i
  let gf := (gfHigh - gfLow) / (1 - pMax) * (pAmb - 1) + gfHigh
  ((pComp - a * gf) / (gf / b - gf + 1) - 1) * 10

/-- Ceiling computation for one integration point.  The scalar division
`gf / (1. - p_max)` on line 581 is plain float division and raises
ZeroDivisionError when `1 - p_max = 0`; that fatal path is the `none` case. -/
def calculate_ceilings (gfHigh gfLow : ℚ) (wpDepths : List ℚ) (pAmb : ℚ)
    (loadN2 loadHe : Fin 16 → ℚ) : Option (Fin 16 → ℚ) :=
  if 1 - pMaxOf wpDepths = 0 then none
  else some (ceilingsFun gfHigh gfLow (pMaxOf wpDepths) pAmb loadN2 loadHe)

/-- Maximum of the 16 per-compartment ceilings, `np.max(self.ceilings)`. -/
def ceilingMax (c : Fin 16 → ℚ) : ℚ := Finset.univ.sup' Finset.univ_nonempty c

/-- Derived overall ceiling (`IntegrationPoint.ceiling`, lines 239-244):
the maximum when positive, otherwise 0. -/
def overallCeiling (c : Fin 16 → ℚ) : ℚ :=
  if 0 < ceilingMax c then ceilingMax c else 0

/-! ## Theorems for claims C2 and C10 -/

/-- C2 counterexample: at the very first integration point of a profile whose
waypoints reach 10 m (surface-saturated nitrogen loads, gf_high = gf_low = 1,
ambient pressure 1 bar) the ceiling computation succeeds and compartment 1
gets a strictly negative ceiling value, refuting the claim that each of the 16
per-compartment ceiling values is nonnegative. -/
theorem initial_compartment_ceiling_neg :
    ((calculate_ceilings 1 1 [0, 10] 1 initLoadN2 initLoadHe).getD (fun _ => 0))
        ⟨0, by norm_num⟩ < 0 ∧
    (calculate_ceilings 1 1 [0, 10] 1 initLoadN2 initLoadHe).isSome = true := by
  constructor
  · norm_num [calculate_ceilings, ceilingsFun, pMaxOf, aN2, bN2, aHe, bHe,
      initLoadN2, initLoadHe, pwQ, List.foldl]
  · norm_num [calculate_ceilings, pMaxOf, List.foldl]

/-- C2 amended: the per-compartment ceiling values themselves may be negative,
but the derived overall ceiling is the maximum of the 16 per-compartment
values floored at 0: it is nonnegative, bounds every compartment value, and is
either 0 or attained by some compartment. -/
theorem overallCeiling_max_floor (c : Fin 16 → ℚ) :
    0 ≤ overallCeiling c ∧ (∀ i, c i ≤ overallCeiling c) ∧
    (overallCeiling c = 0 ∨ ∃ i, overallCeiling c = c i) := by
  by_cases h : 0 < ceilingMax c
  · have hov : overallCeiling c = ceilingMax c := by rw [overallCeiling, if_pos h]
    refine ⟨hov ▸ le_of_lt h, ?_, ?_⟩
    · intro i
      exact hov ▸ Finset.le_sup' c (Finset.mem_univ i)
    · obtain ⟨b, _, hb⟩ := Finset.exists_mem_eq_sup' Finset.univ_nonempty c
      exact Or.inr ⟨b, hov ▸ hb⟩
  · refine ⟨by simp [overallCeiling, h], ?_, Or.inl (by simp [overallCeiling, h])⟩
    intro i
    have hle : c i ≤ ceilingMax c := Finset.le_sup' c (Finset.mem_univ i)
    have h0 : ceilingMax c ≤ 0 := not_lt.mp h
    simpa [overallCeiling, h] using hle.trans h0

/-- Helper: the running maximum in `pMaxOf` dominates its accumulator. -/
theorem le_foldl_depthMax (l : List ℚ) (acc : ℚ) :
    acc ≤ l.foldl (fun a d => if a < d then d else a) acc := by
  induction l generalizing acc with
  | nil => exact le_refl acc
  | cons x l ih =>
    refine le_trans ?_ (ih (if acc < x then x else acc))
    by_cases h : acc < x <;> simp [h, le_of_lt]

/-- Helper: every member of the list is below the running maximum. -/
theorem mem_le_foldl_depthMax (l : List ℚ) (acc d : ℚ) (h : d ∈ l) :
    d ≤ l.foldl (fun a x => if a < x then x else a) acc := by
  induction l generalizing acc with
  | nil => cases h
  | cons x l ih =>
    rcases List.mem_cons.mp h with h1 | h1
    · subst h1
      refine le_trans ?_ (le_foldl_depthMax l (if acc < d then d else acc))
      by_cases h2 : acc < d <;> simp [h2]
      exact not_lt.mp h2
    · exact ih (if acc < x then x else acc) h1

/-- Helper: the running maximum over an all-zero depth list stays 0. -/
theorem foldl_depthMax_all_zero (l : List ℚ) (h : ∀ d ∈ l, d = 0) :
    l.foldl (fun a d => if a < d then d else a) 0 = 0 := by
  induction l with
  | nil => rfl
  | cons x l ih =>
    have hx : x = 0 := h x (List.mem_cons_self x l)
    subst hx
    simpa using ih (fun d hd => h d (List.mem_cons_of_mem _ hd))

/-- C10: if some realized waypoint has positive depth, the gradient-factor
divisor `1 - p_max` is nonzero and the ceiling computation is defined; if
every waypoint depth is 0 the unguarded division makes it undefined
(Python ZeroDivisionError, the none case). -/
theorem ceilings_divisor (gfHigh gfLow pAmb : ℚ) (wpDepths : List ℚ)
    (loadN2 loadHe : Fin 16 → ℚ) :
    ((∃ d ∈ wpDepths, 0 < d) →
      (calculate_ceilings gfHigh gfLow wpDepths pAmb loadN2 loadHe).isSome = true) ∧
    ((∀ d ∈ wpDepths, d = 0) →
      calculate_ceilings gfHigh gfLow wpDepths pAmb loadN2 loadHe = none) := by
  constructor
  · rintro ⟨d, hd, hpos⟩
    have h1 : d ≤ wpDepths.foldl (fun a x => if a < x then x else a) 0 :=
      mem_le_foldl_depthMax wpDepths 0 d hd
    have h2 : (0 : ℚ) < wpDepths.foldl (fun a x => if a < x then x else a) 0 :=
      lt_of_lt_of_le hpos h1
    have h3 : 1 - pMaxOf wpDepths ≠ 0 := by
      unfold pMaxOf
      intro hcontra
      nlinarith
    simp [calculate_ceilings, h3]
  · intro hall
    have h0 : wpDepths.foldl (fun a d => if a < d then d else a) 0 = 0 :=
      foldl_depthMax_all_zero wpDepths hall
    have h3 : 1 - pMaxOf wpDepths = 0 := by
      unfold pMaxOf
      rw [h0]
      norm_num
    simp [calculate_ceilings, h3]

/-- C10 witness: a depth list reaching 10 m gives a defined ceiling
computation; the all-zero depth list reproduces the undefined case. -/
theorem ceilings_divisor_witness :
    (calculate_ceilings 1 1 [0, 10] 1 initLoadN2 initLoadHe).isSome = true ∧
    calculate_ceilings 1 1 [0, 0] 1 initLoadN2 initLoadHe = none := by
  constructor
  · exact (ceilings_divisor 1 1 1 [0, 10] initLoadN2 initLoadHe).1
      ⟨10, by norm_num, by norm_num⟩
  · refine (ceilings_divisor 1 1 1 [0, 0] initLoadN2 initLoadHe).2 ?_
    intro d hd
    simp at hd
    exact hd

/-! ## Tank-pressure consumption (`Profile._calculate_tank_pressure`, lines 652-662) -/

/-- Mirror of `_calculate_tank_pressure`: respiration volume at average
ambient pressure, converted to bar per minute by the selected tank size,
multiplied by the segment duration and deducted from the selected tank only.
List.set and getD correspond to the copy-then-index-update on lines 657-660
(valid indices throughout; Python would raise IndexError otherwise). -/
def calculate_tank_pressure (tanks : List Tank) (prevTank : ℕ)
    (prevDurMin pAmbNew pAmbPrev : ℚ) (prevPressures : List ℚ) (sac : ℚ) :
    List ℚ :=
  let rmv := sac * (pAmbNew + pAmbPrev) / 2
  let barMin := rmv / (tanks.getD prevTank ⟨⟨21, 0⟩, 15, 200⟩).size
  let consumption := barMin * prevDurMin
  prevPressures.set prevTank (prevPressures.getD prevTank 0 - consumption)

/-- C6: one integration step deducts
rate x average-ambient-pressure x duration / tank-size bar from the selected
tank, keeps every other tank pressure unchanged, and preserves the number of
tanks tracked. -/
theorem tankPressure_consumption_frame (tanks : List Tank) (prevTank : ℕ)
    (prevDurMin pAmbNew pAmbPrev sac : ℚ) (prevPressures : List ℚ)
    (ht : prevTank < tanks.length) (hp : prevTank < prevPressures.length) :
    (calculate_tank_pressure tanks prevTank prevDurMin pAmbNew pAmbPrev
        prevPressures sac)[prevTank]? =
      some (prevPressures.get ⟨prevTank, hp⟩ -
        sac * ((pAmbNew + pAmbPrev) / 2) * prevDurMin /
          (tanks.get ⟨prevTank, ht⟩).size) ∧
    (∀ j, j ≠ prevTank →
      (calculate_tank_pressure tanks prevTank prevDurMin pAmbNew pAmbPrev
          prevPressures sac)[j]? = prevPressures[j]?) ∧
    (calculate_tank_pressure tanks prevTank prevDurMin pAmbNew pAmbPrev
        prevPressures sac).length = prevPressures.length := by
  refine ⟨?_, ?_, by simp [calculate_tank_pressure]⟩
  · unfold calculate_tank_pressure
    rw [List.getElem?_set_eq_of_lt _ (by simpa using hp)]
    have hgd : prevPressures.getD prevTank 0 = prevPressures.get ⟨prevTank, hp⟩ := by
      simp [List.getD_eq_getElem?_getD, List.getElem?_eq_getElem hp]
    have hgt : tanks.getD prevTank ⟨⟨21, 0⟩, 15, 200⟩ = tanks.get ⟨prevTank, ht⟩ := by
      simp [List.getD_eq_getElem?_getD, List.getElem?_eq_getElem ht]
    rw [hgd, hgt]
    congr 1
    ring
  · intro j hj
    unfold calculate_tank_pressure
    exact List.getElem?_set_ne (fun h => hj h.symm)

/-- C6 witness: a single air tank of 15 liters at 200 bar, one 5-second step
(1/12 min) between ambient pressures 2 and 2.2 bar at a surface consumption
rate of 20 l/min. -/
theorem tankPressure_consumption_frame_witness :
    (calculate_tank_pressure [⟨⟨21, 0⟩, 15, 200⟩] 0 (1 / 12) 2 (11 / 5) [200] 20)[0]? =
      some (200 - 20 * ((2 + 11 / 5) / 2) * (1 / 12) / 15) := by
  have h := (tankPressure_consumption_frame [⟨⟨21, 0⟩, 15, 200⟩] 0 (1 / 12) 2 (11 / 5)
      20 [200] (by norm_num) (by norm_num)).1
  simpa using h

/-! ## Waypoints and depth interpolation (`Profile._interpolate_depth`, lines 763-781) -/

/-- Waypoint of the realized plan: depth, duration (minutes), runtime at the
start of the segment (whole seconds, as the interpolation reads it) and the
tank index in use. -/
structure WaypointV where
  depth : ℚ
  durationMin : ℚ
  runtimeSec : ℤ
  tank : ℕ
deriving DecidableEq

/-- Python exceptions the interpolation can raise: the dedicated
InterpolationError (line 776) and the built-in IndexError from
`self._waypoints[idx + 1]` on line 772 when idx is the last index. -/
inductive PyErr where
  | interpolation
  | index
deriving DecidableEq

/-- Rounding to one decimal, `round(x, 1)`.  Python rounds half to even on the
binary float; this floor-based form agrees except on exact .5 ties, which no
claim exercises. -/
def round1 (x : ℚ) : ℚ := (Int.floor (x * 10 + 1 / 2) : ℚ) / 10

/-- Loop of `_interpolate_depth` (lines 767-781).  The accumulator holds the
pair (wp_0, wp_1), which the source initialises to None and overwrites at
every waypoint whose runtime is strictly below the requested one, looking up
the next list element (IndexError when there is none, hence the index error
branch).  After the loop, None means InterpolationError; otherwise the linear
interpolation of lines 778-781 is returned rounded to one decimal.  At the
final formula the divisor w1.runtime - w0.runtime is never zero when the loop
ran to completion (the element after the last update is strictly beyond the
requested runtime), so total division is faithful. -/
def interpGo (t : ℤ) : List WaypointV → Option (WaypointV × WaypointV) → Except PyErr ℚ
  | [], acc =>
    match acc with
    | none => .error .interpolation
    | some (w0, w1) =>
      .ok (round1 ((w1.depth - w0.depth) / ((w1.runtimeSec : ℚ) - (w0.runtimeSec : ℚ))
        * ((t : ℚ) - (w0.runtimeSec : ℚ)) + w0.depth))
  | wp :: rest, acc =>
    if t = wp.runtimeSec then .ok (round1 wp.depth)
    else if wp.runtimeSec < t then
      match rest with
      | [] => .error .index
      | wp1 :: _ => interpGo t rest (some (wp, wp1))
    else interpGo t rest acc

/-- Depth interpolation against the realized waypoint sequence at a requested
runtime in seconds. -/
def interpolate_depth (wps : List WaypointV) (t : ℤ) : Except PyErr ℚ :=
  interpGo t wps none

/-- Runtime of the last waypoint of a list, with a default for the empty
list. -/
def lastRuntime : List WaypointV → ℤ → ℤ
  | [], d => d
  | u :: r, _ => lastRuntime r u.runtimeSec

/-- Helper: when the requested runtime is below every waypoint runtime the
loop never sets the bracket and the source raises InterpolationError. -/
theorem interpGo_below (t : ℤ) (l : List WaypointV)
    (h : ∀ u ∈ l, t < u.runtimeSec) :
    interpGo t l none = .error .interpolation := by
  induction l with
  | nil => rfl
  | cons u r ih =>
    have ht : t < u.runtimeSec := h u (List.mem_cons_self u r)
    have h1 : t ≠ u.runtimeSec := ne_of_lt ht
    have h2 : ¬ u.runtimeSec < t := not_lt.mpr (le_of_lt ht)
    simp only [interpGo, if_neg h1, if_neg h2]
    exact ih (fun v hv => h v (List.mem_cons_of_mem _ hv))

/-- Helper: when the requested runtime is beyond every waypoint runtime the
loop reads past the end of the list and the source raises IndexError. -/
theorem interpGo_beyond (t : ℤ) :
    ∀ (l : List WaypointV), l ≠ [] → (∀ u ∈ l, u.runtimeSec < t) →
      ∀ acc, interpGo t l acc = .error .index
  | [], hne, _, _ => absurd rfl hne
  | u :: r, _, h, acc => by
    have ht : u.runtimeSec < t := h u (List.mem_cons_self u r)
    have h1 : t ≠ u.runtimeSec := (ne_of_lt ht).symm
    cases r with
    | nil => simp only [interpGo, if_neg h1, if_pos ht]
    | cons v r2 =>
      simp only [interpGo, if_neg h1, if_pos ht]
      exact interpGo_beyond t (v :: r2) (by simp)
        (fun w hw => h w (List.mem_cons_of_mem _ hw)) (some (u, v))

/-- Helper: once the bracket accumulator is set, the loop ends in a successful
interpolation whenever the requested runtime does not pass the last waypoint. -/
theorem interpGo_some_ok (t : ℤ) :
    ∀ (l : List WaypointV) (w0 w1 : WaypointV), t ≤ lastRuntime l t →
      ∃ q, interpGo t l (some (w0, w1)) = .ok q
  | [], w0, w1, _ => ⟨_, rfl⟩
  | u :: r, w0, w1, h => by
    by_cases h1 : t = u.runtimeSec
    · exact ⟨round1 u.depth, by simp only [interpGo, if_pos h1]⟩
    · by_cases h2 : u.runtimeSec < t
      · cases r with
        | nil =>
          exfalso
          have : t ≤ u.runtimeSec := h
          exact absurd (lt_of_lt_of_le h2 this) (lt_irrefl _)
        | cons v r2 =>
          have h3 : t ≤ lastRuntime (v :: r2) t := h
          obtain ⟨q, hq⟩ := interpGo_some_ok t (v :: r2) u v h3
          exact ⟨q, by simp only [interpGo, if_neg h1, if_pos h2]; exact hq⟩
      · have h3 : t ≤ lastRuntime r t := by
          cases r with
          | nil => exact le_refl t
          | cons v r2 => exact h
        obtain ⟨q, hq⟩ := interpGo_some_ok t r w0 w1 h3
        exact ⟨q, by simp only [interpGo, if_neg h1, if_neg h2]; exact hq⟩

/-- C8 counterexample: a requested runtime of 90 s falls above the bracketed
runtime range [0 s, 60 s] of a two-waypoint sequence, but the code raises the
built-in IndexError from `self._waypoints[idx + 1]`, not the dedicated
InterpolationError the claim names. -/
theorem interpolate_above_range_index_error :
    interpolate_depth [⟨0, 0, 0, 0⟩, ⟨10, 0, 60, 0⟩] 90 = .error PyErr.index ∧
    (Except.error PyErr.index : Except PyErr ℚ) ≠ .error PyErr.interpolation := by
  constructor
  · norm_num [interpolate_depth, interpGo]
  · simp

/-- C8 amended: for a nonempty realized waypoint sequence the interpolation
raises InterpolationError exactly when the requested runtime lies below every
waypoint runtime; a runtime beyond every waypoint runtime instead raises the
built-in IndexError; a runtime between the first waypoint and the last
waypoint succeeds with an interpolated depth. -/
theorem interpolate_depth_cases (w : WaypointV) (rest : List WaypointV) (t : ℤ) :
    ((∀ u ∈ w :: rest, t < u.runtimeSec) →
      interpolate_depth (w :: rest) t = .error .interpolation) ∧
    ((∀ u ∈ w :: rest, u.runtimeSec < t) →
      interpolate_depth (w :: rest) t = .error .index) ∧
    (w.runtimeSec ≤ t → t ≤ lastRuntime (w :: rest) t →
      ∃ q, interpolate_depth (w :: rest) t = .ok q) := by
  refine ⟨fun h => interpGo_below t _ h,
    fun h => interpGo_beyond t _ (by simp) h none, fun hlo hhi => ?_⟩
  by_cases h1 : t = w.runtimeSec
  · exact ⟨round1 w.depth, by simp only [interpolate_depth, interpGo, if_pos h1]⟩
  · have h2 : w.runtimeSec < t := lt_of_le_of_ne hlo (fun h => h1 h.symm)
    cases rest with
    | nil =>
      exfalso
      have : t ≤ w.runtimeSec := hhi
      exact absurd (lt_of_lt_of_le h2 this) (lt_irrefl _)
    | cons v r2 =>
      obtain ⟨q, hq⟩ := interpGo_some_ok t (v :: r2) w v hhi
      refine ⟨q, ?_⟩
      simp only [interpolate_depth, interpGo, if_neg h1, if_pos h2]
      exact hq

/-- C8 witness: on the waypoint sequence [(depth 0, runtime 0 s),
(depth 10, runtime 60 s)] a requested runtime of 30 s is inside the bracketed
range and interpolation succeeds. -/
theorem interpolate_depth_cases_witness :
    ∃ q, interpolate_depth [⟨0, 0, 0, 0⟩, ⟨10, 0, 60, 0⟩] 30 = .ok q :=
  (interpolate_depth_cases ⟨0, 0, 0, 0⟩ [⟨10, 0, 60, 0⟩] 30).2.2 (by norm_num)
    (by norm_num [lastRuntime])

/-! ## Ascent depth trajectories (`Profile._calculate_direct_ascent`, lines
421-447, and `Profile._calculate_regular_ascent`, lines 449-486) -/

/-- Depth trajectory of the `_calculate_direct_ascent` while loop: while the
previous depth exceeds the target, append `round(prev - v_asc * dt.minutes, 1)`.
The tissue-load, ceiling, pressure and toxicity updates of the loop body do
not feed back into the produced depths, so the trajectory is the part of the
routine claim C3 is about.  The fuel argument models the unbounded while loop;
none means the fuel ran out before the loop finished, which never happens in
the theorems below. -/
def directAscentLoop (vAsc dtMin target : ℚ) : ℕ → ℚ → Option (List ℚ)
  | 0, cur => if target < cur then none else some []
  | n + 1, cur =>
    if target < cur then
      match directAscentLoop vAsc dtMin target n (round1 (cur - vAsc * dtMin)) with
      | none => none
      | some l => some (round1 (cur - vAsc * dtMin) :: l)
    else some []

/-- Iteration count of the safety-stop hold loop (lines 459-475):
`safety_stop_timer` starts at 0 and grows by `dt.seconds` until it reaches
`Time(safety_stop_duration).seconds`. -/
def safetyHoldCount (durSec dtSec : ℤ) : ℕ → ℤ → Option ℕ
  | 0, timer => if timer < durSec then none else some 0
  | n + 1, timer =>
    if timer < durSec then
      match safetyHoldCount durSec dtSec n (timer + dtSec) with
      | none => none
      | some k => some (k + 1)
    else some 0

/-- Depth trajectory of `_calculate_regular_ascent` (lines 449-486).  The
branch guard on line 452 compares the TARGET depth argument (always 0 when the
profile constructor invokes the regular ascent) with the safety-stop depth,
not the current depth.  In the safety-stop branch the source then evaluates
`segments[-1][-1]` (line 457), which raises IndexError when the ascent segment
to the safety-stop depth is empty — i.e. when the dive already sits at or
above the safety-stop depth; that fatal path, and the corresponding one after
the hold loop (line 477), are the none cases. -/
def regularAscentDepths (P : Params) (fuel : ℕ) (depth cur : ℚ) : Option (List ℚ) :=
  if P.safety_stop_depth < depth then
    directAscentLoop P.v_asc P.dt.minutes depth fuel cur
  else
    match directAscentLoop P.v_asc P.dt.minutes P.safety_stop_depth fuel cur with
    | none => none
    | some seg1 =>
      match seg1.getLast? with
      | none => none
      | some _ =>
        match safetyHoldCount (timeOfMinutes P.safety_stop_duration).seconds
            P.dt.seconds fuel 0 with
        | none => none
        | some n =>
          match (List.replicate n P.safety_stop_depth).getLast? with
          | none => none
          | some lastHold =>
            match directAscentLoop P.v_asc P.dt.minutes depth fuel lastHold with
            | none => none
            | some seg3 =>
              some (seg1 ++ List.replicate n P.safety_stop_depth ++ seg3)

/-- C3: with the default configuration (safety-stop depth 5 m) and a dive
whose bottom phase ends at 4 m, the regular ascent crashes (IndexError on the
empty ascent-to-stop segment) because its guard compares the target depth 0
rather than the current depth with the safety-stop depth, whereas a direct
ascent to the surface from 4 m — what the claim prescribes for a start already
shallower than the safety stop — is perfectly well defined and reaches 0 m. -/
theorem regularAscent_shallow_start_crash :
    regularAscentDepths defaultParams 8 0 4 = none ∧
    directAscentLoop 10 (5 / 60) 0 8 4 =
      some [16 / 5, 12 / 5, 8 / 5, 4 / 5, 0] := by
  constructor
  · norm_num [regularAscentDepths, defaultParams, defaultTimeStep, directAscentLoop]
  · norm_num [directAscentLoop, round1]

/-! ## Configuration serialization (`Parameters.to_json` / `from_json`,
profile.py lines 115-119) -/

/-- Primitive JSON value. -/
inductive JPrim where
  | jnull : JPrim
  | jbool : Bool → JPrim
  | jnum : ℚ → JPrim
  | jstr : String → JPrim
deriving DecidableEq

/-- JSON value as produced by `json.dumps` / consumed by `json.loads` for a
Parameters attribute: a primitive or an object of primitives (the serialized
Parameters object is flat apart from the Time attribute dict, and arrays do
not occur). -/
inductive JVal where
  | prim : JPrim → JVal
  | jobj : List (String × JPrim) → JVal
deriving DecidableEq

/-- Python runtime value of a Parameters attribute, before or after the round
trip: a primitive, the Time instance held by dt, or plain parsed JSON data
(what `json.loads` rebuilds for nested objects). -/
inductive PyVal where
  | pnull : PyVal
  | pbool : Bool → PyVal
  | pnum : ℚ → PyVal
  | pstr : String → PyVal
  | timeObj : TimeV → PyVal
  | jdata : JVal → PyVal
deriving DecidableEq

/-- Attribute dictionary of a Parameters instance (its `__dict__`), in
dataclass field order; dt holds a Time object. -/
def pyAttrs (p : Params) : List (String × PyVal) :=
  [("last_stop_depth", .pnum p.last_stop_depth),
   ("stop_depth_incr", .pnum p.stop_depth_incr),
   ("safety_stop_depth", .pnum p.safety_stop_depth),
   ("safety_stop_duration", .pnum p.safety_stop_duration),
   ("v_asc", .pnum p.v_asc),
   ("v_desc", .pnum p.v_desc),
   ("own_descent_sac", .pnum p.own_descent_sac),
   ("own_bottom_sac", .pnum p.own_bottom_sac),
   ("own_ascent_sac", .pnum p.own_ascent_sac),
   ("buddy_ascent_sac", .pnum p.buddy_ascent_sac),
   ("gf_high", .pnum p.gf_high),
   ("gf_low", .pnum p.gf_low),
   ("calc_ascent", .pbool p.calc_ascent),
   ("calc_descent", .pbool p.calc_descent),
   ("deco_stops", .pbool p.deco_stops),
   ("safety_stop", .pbool p.safety_stop),
   ("gas_switch", .pstr p.gas_switch),
   ("gas_switch_duration", .pnum p.gas_switch_duration),
   ("dt", .timeObj p.dt)]

/-- Serialization of the Time instance that `json.dumps` performs through
`default=lambda o: o.__dict__` (line 116): the object is replaced by the JSON
object of its `_unit`, `_minutes`, `_seconds` attributes. -/
def timeToJson (t : TimeV) : JVal :=
  .jobj [("_unit", .jstr t.unit), ("_minutes", .jnum t.minutes),
    ("_seconds", .jnum ((t.seconds : ℚ)))]

/-- Serialization of one attribute value by `json.dumps(self, default=lambda
o: o.__dict__, sort_keys=True, indent=4)`: primitives serialize natively, the
Time object through its attribute dict, and parsed JSON data as itself.
`sort_keys` and `indent` only affect the text layout, never the values. -/
def attrToJson : PyVal → JVal
  | .pnull => .prim .jnull
  | .pbool b => .prim (.jbool b)
  | .pnum q => .prim (.jnum q)
  | .pstr s => .prim (.jstr s)
  | .timeObj t => timeToJson t
  | .jdata j => j

/-- Value a parsed JSON attribute has at Python runtime after
`self.__dict__ = json.loads(json_str)` (line 119): primitives become
primitives again, while a nested JSON object stays plain parsed data — it is
never turned back into a Time instance. -/
def jvalToPyAttr : JVal → PyVal
  | .prim (.jnum q) => .pnum q
  | .prim (.jbool b) => .pbool b
  | .prim (.jstr s) => .pstr s
  | .prim .jnull => .pnull
  | .jobj l => .jdata (.jobj l)

/-- The JSON object `to_json` produces for a Parameters instance, as a
key-value list. -/
def paramsToJsonObj (p : Params) : List (String × JVal) :=
  (pyAttrs p).map (fun kv => (kv.1, attrToJson kv.2))

/-- Attribute dictionary of the Parameters instance after
`from_json(to_json(p))`. -/
def roundTripAttrs (p : Params) : List (String × PyVal) :=
  (paramsToJsonObj p).map (fun kv => (kv.1, jvalToPyAttr kv.2))

/-- Python equality (`==`) restricted to the values occurring in this round
trip: primitives and parsed JSON data compare by value; class Time defines no
`__eq__`, so a Time instance compares equal only to the identical object —
in particular never to the freshly parsed dict the round trip yields, nor to
any distinct Time. -/
def pythonEq : PyVal → PyVal → Bool
  | .pnull, .pnull => true
  | .pbool a, .pbool b => a == b
  | .pnum a, .pnum b => a == b
  | .pstr a, .pstr b => a == b
  | .jdata a, .jdata b => a == b
  | _, _ => false

/-- C9 counterexample: for the default configuration the round trip leaves the
dt attribute as the plain parsed mapping of the Time fields, and Python
equality between the original Time value and that mapping is False — the
round trip is not lossless for the simulation time step. -/
theorem roundtrip_dt_not_python_equal :
    (roundTripAttrs defaultParams).lookup "dt" =
      some (.jdata (timeToJson defaultTimeStep)) ∧
    pythonEq (.timeObj defaultTimeStep) (.jdata (timeToJson defaultTimeStep)) = false := by
  constructor
  · rfl
  · rfl

/-- C9 amended: serializing a configuration and deserializing the text
restores every field except dt with a Python-equal value; the dt field keeps
its data (the unit, minutes and seconds components of the Time) but comes back
as a plain mapping rather than a Time value. -/
theorem roundtrip_fields (p : Params) :
    List.Forall₂
      (fun a b => a.1 = b.1 ∧ (a.1 ≠ "dt" → pythonEq a.2 b.2 = true) ∧
        (a.1 = "dt" → b.2 = PyVal.jdata (timeToJson p.dt)))
      (pyAttrs p) (roundTripAttrs p) := by
  simp [pyAttrs, roundTripAttrs, paramsToJsonObj, attrToJson, jvalToPyAttr,
    pythonEq, timeToJson, List.forall₂_cons]

/-- C9 witness: the amended field-by-field round-trip relation at the default
configuration. -/
theorem roundtrip_fields_witness :
    List.Forall₂
      (fun a b => a.1 = b.1 ∧ (a.1 ≠ "dt" → pythonEq a.2 b.2 = true) ∧
        (a.1 = "dt" → b.2 = PyVal.jdata (timeToJson defaultParams.dt)))
      (pyAttrs defaultParams) (roundTripAttrs defaultParams) :=
  roundtrip_fields defaultParams

/-! ## Tissue loading (`Profile._calculate_compartments`, lines 543-561)

The source evaluates the Schreiner equation with numpy floats; here the
numbers are real, so exp makes these definitions noncomputable. -/

/-- Water vapour pressure constant as a real number (line 36). -/
noncomputable def pwR : ℝ := 0.0567

/-- ZH-L16C nitrogen half-times (lines 14-15). -/
noncomputable def htN2R : Fin 16 → ℝ := fun i =>
  [5, 8, 12.5, 18.5, 27, 38.3, 54.3, 77, 109, 146, 187, 239, 305, 390,
   498, 635].getD i 0

/-- ZH-L16C helium half-times (lines 21-22). -/
noncomputable def htHeR : Fin 16 → ℝ := fun i =>
  [1.88, 3.02, 4.72, 6.99, 10.21, 14.48, 20.53, 29.11, 41.20, 55.19, 70.69,
   90.34, 115.29, 147.42, 188.24, 240.03].getD i 0

/-- Schreiner update for one compartment and one gas, exactly as the loop body
of `_calculate_compartments` computes it (lines 550-557): inspired pressure
`f_ig * (p_amb - pw)`, rate `((depth_new - depth_prev) / dur * f_ig) / 10`,
rate constant `log 2 / half_time`, then
`pi + r*(dur - 1/k) - (pi - p0 - r/k) * exp(-k*dur)`.
For dur = 0 the Python raises ZeroDivisionError; total real division makes the
formula-equality theorem below hold for every dur under the same convention on
both sides. -/
noncomputable def schreinerCode (fig ht p0 pAmb depthNew depthPrev dur : ℝ) : ℝ :=
  let pIns := fig * (pAmb - pwR)
  let r := (depthNew - depthPrev) / dur * fig / 10
  let k := Real.log 2 / ht
  pIns + r * (dur - 1 / k) - (pIns - p0 - r / k) * Real.exp (-k * dur)

/-- Modelled from the spec: the Schreiner closed form exactly as section 4.2
and claim C4 write it, `p_inspired = f_ig * (p_amb - 0.0567)`,
`r = delta_depth / dt / 10 * f_ig`, `k = ln 2 / half_time`,
`p_new = p_inspired + r*(dt - 1/k) - (p_inspired - p0 - r/k) * e^(-k dt)`,
kept as a separate definition so the source formula can be compared
against it. -/
noncomputable def specSchreiner (fig halfTime p0 pAmb deltaDepth dt : ℝ) : ℝ :=
  let pInspired := fig * (pAmb - 0.0567)
  let r := deltaDepth / dt / 10 * fig
  let k := Real.log 2 / halfTime
  pInspired + r * (dt - 1 / k) - (pInspired - p0 - r / k) * Real.exp (-k * dt)

/-- Full compartment update of `_calculate_compartments`: for both gases,
every compartment is updated independently with the inert-gas fraction of the
tank in use during the segment (prev_ip.waypoint.tank, line 549) and the
ambient pressure of the segment end (ip.p_amb, line 545).  The tank index is
valid in every call the profile makes (Python would raise IndexError
otherwise). -/
noncomputable def calculate_compartments (tanks : List Gas) (prevTank : ℕ)
    (prevLoadN2 prevLoadHe : Fin 16 → ℝ) (depthNew depthPrev durMin : ℝ) :
    (Fin 16 → ℝ) × (Fin 16 → ℝ) :=
  (fun i => schreinerCode ((Gas.n2 (tanks.getD prevTank ⟨21, 0⟩) : ℝ) / 100)
      (htN2R i) (prevLoadN2 i) (depthNew / 10 + 1) depthNew depthPrev durMin,
   fun i => schreinerCode (((tanks.getD prevTank ⟨21, 0⟩).he : ℝ) / 100)
      (htHeR i) (prevLoadHe i) (depthNew / 10 + 1) depthNew depthPrev durMin)

/-- C4: for every pair of consecutive integration points, every compartment
and both inert gases, the new load computed by the source equals the
spec-stated Schreiner closed form with p_amb the ambient pressure at segment
end, f_ig the inert-gas fraction of the tank in use, r the depth delta over
duration over 10 times f_ig, and k = ln 2 over the compartment half-time.
The computation is a pure function of the two waypoints, the tank list and
the previous loads by construction. -/
theorem compartments_eq_schreiner (tanks : List Gas) (prevTank : ℕ)
    (prevLoadN2 prevLoadHe : Fin 16 → ℝ) (depthNew depthPrev durMin : ℝ)
    (i : Fin 16) :
    (calculate_compartments tanks prevTank prevLoadN2 prevLoadHe depthNew
        depthPrev durMin).1 i =
      specSchreiner ((Gas.n2 (tanks.getD prevTank ⟨21, 0⟩) : ℝ) / 100) (htN2R i)
        (prevLoadN2 i) (depthNew / 10 + 1) (depthNew - depthPrev) durMin ∧
    (calculate_compartments tanks prevTank prevLoadN2 prevLoadHe depthNew
        depthPrev durMin).2 i =
      specSchreiner (((tanks.getD prevTank ⟨21, 0⟩).he : ℝ) / 100) (htHeR i)
        (prevLoadHe i) (depthNew / 10 + 1) (depthNew - depthPrev) durMin := by
  constructor <;>
  · simp only [calculate_compartments, schreinerCode, specSchreiner, pwR]
    ring

/-! ## Oxygen toxicity (`Profile._calculate_otu`, lines 706-734, and
`Profile._calculate_cns`, lines 736-761) -/

/-- Oxygen partial pressure over the reals (`Gas.ppO2`, lines 128-130). -/
noncomputable def Gas.ppO2R (g : Gas) (depth : ℝ) : ℝ :=
  (depth / 10 + 1) * (g.o2 : ℝ) / 100

/-- NOAA CNS linear-model table `noaa_cns_equations` (lines 31-33), in
insertion order: ((ppO2 lo, ppO2 hi), (m, b)). -/
noncomputable def noaaCnsEquations : List ((ℝ × ℝ) × ℝ × ℝ) :=
  [((0.5, 0.6), (-1800, 1800)), ((0.6, 0.7), (-1500, 1620)),
   ((0.7, 0.8), (-1200, 1410)), ((0.8, 0.9), (-900, 1170)),
   ((0.9, 1.1), (-600, 900)), ((1.1, 1.5), (-300, 570)),
   ((1.5, 1.6), (-750, 1245))]


open Classical in
/-- Table scan of lines 744-750: first entry whose closed interval contains
the starting ppO2, defaulting to (0, 0) when no row matches. -/
noncomputable def noaaLookupGo (p : ℝ) : List ((ℝ × ℝ) × ℝ × ℝ) → ℝ × ℝ
  | [] => (0, 0)
  | e :: rest => if e.1.1 ≤ p ∧ p ≤ e.1.2 then e.2 else noaaLookupGo p rest

/-- NOAA (m, b) pair looked up for a starting ppO2. -/
noncomputable def noaaLookup (p : ℝ) : ℝ × ℝ := noaaLookupGo p noaaCnsEquations

open Classical in
/-- Core of `_calculate_cns` (lines 736-761) once the two endpoint ppO2
values have been read from the tanks; the source works only with them, the
two depths and the segment time afterwards.  The none branches are the Python
crashes: `segment_time / t_lim` with t_lim = 0 (ZeroDivisionError, reachable
when the starting ppO2 exceeds 1.6 so no table row matches), computing
`k = (pp_o2_end - pp_o2_ini) / segment_time` with zero segment time, a zero
argument to `log(abs(...))` (ValueError) and a zero divisor `m * k`
(ZeroDivisionError). -/
noncomputable def cnsCore (segTime dIni dEnd pIni pEnd : ℝ) : Option ℝ :=
  if pIni < 0.5 ∨ pEnd < 0.5 then some 0
  else
    let mb := noaaLookup pIni
    let tLim := mb.1 * pIni + mb.2
    if dEnd = dIni then
      if tLim = 0 then none else some (segTime / tLim)
    else
      if segTime = 0 then none
      else
        let k := (pEnd - pIni) / segTime
        if tLim + mb.1 * k * segTime = 0 ∨ tLim = 0 ∨ mb.1 * k = 0 then none
        else
          some ((Real.log |tLim + mb.1 * k * segTime| - Real.log |tLim|) /
            (mb.1 * k))

/-- Mirror of `_calculate_cns`: endpoint ppO2 values from the tanks in use at
the two waypoints (lines 738-739), then the core formula. -/
noncomputable def calculate_cns (tanks : List Gas) (prevDepth prevDurMin : ℝ)
    (prevTank : ℕ) (ipDepth : ℝ) (ipTank : ℕ) : Option ℝ :=
  cnsCore prevDurMin prevDepth ipDepth
    (Gas.ppO2R (tanks.getD prevTank ⟨21, 0⟩) prevDepth)
    (Gas.ppO2R (tanks.getD ipTank ⟨21, 0⟩) ipDepth)

open Classical in
/-- Core of `_calculate_otu` (lines 706-734) once the two endpoint ppO2
values have been read.  The none branches are the Python ZeroDivisionError
paths: a starting ppO2 of exactly 0.5 at constant depth, a changing-depth
segment whose two endpoint ppO2 coincide (zero divisor in the exposure-time
ratio) and clamped endpoint pressures that coincide (zero final divisor). -/
noncomputable def otuCore (segTime dIni dEnd pIni pEnd : ℝ) : Option ℝ :=
  if dEnd = dIni then
    if 0.5 ≤ pIni then
      if pIni - 0.5 = 0 then none
      else some (segTime * (0.5 / (pIni - 0.5)) ^ ((-5 : ℝ) / 6))
    else some 0
  else
    if max pIni pEnd < 0.5 then some 0
    else
      if max pIni pEnd - min pIni pEnd = 0 then none
      else
        if max 0.5 pEnd - max 0.5 pIni = 0 then none
        else
          some (3 * (segTime *
              ((max pIni pEnd -
                  (if min pIni pEnd < 0.5 then (0.5 : ℝ) else min pIni pEnd)) /
                (max pIni pEnd - min pIni pEnd))) / 11 *
            (((max 0.5 pEnd - 0.5) / 0.5) ^ ((11 : ℝ) / 6) -
              ((max 0.5 pIni - 0.5) / 0.5) ^ ((11 : ℝ) / 6)) /
            (max 0.5 pEnd - max 0.5 pIni))

/-- Mirror of `_calculate_otu`: endpoint ppO2 values from the tanks in use at
the two waypoints (lines 708-709), then the core formula. -/
noncomputable def calculate_otu (tanks : List Gas) (prevDepth prevDurMin : ℝ)
    (prevTank : ℕ) (ipDepth : ℝ) (ipTank : ℕ) : Option ℝ :=
  otuCore prevDurMin prevDepth ipDepth
    (Gas.ppO2R (tanks.getD prevTank ⟨21, 0⟩) prevDepth)
    (Gas.ppO2R (tanks.getD ipTank ⟨21, 0⟩) ipDepth)

/-- Helper: every defined OTU step value is nonnegative when the segment time
is nonnegative. -/
theorem otuCore_nonneg (segTime dIni dEnd pIni pEnd : ℝ) (ht : 0 ≤ segTime)
    (v : ℝ) (hv : otuCore segTime dIni dEnd pIni pEnd = some v) : 0 ≤ v := by
  unfold otuCore at hv
  by_cases h1 : dEnd = dIni
  · rw [if_pos h1] at hv
    by_cases h2 : (0.5 : ℝ) ≤ pIni
    · rw [if_pos h2] at hv
      by_cases h3 : pIni - 0.5 = 0
      · rw [if_pos h3] at hv
        exact absurd hv (by simp)
      · rw [if_neg h3] at hv
        have hx := Option.some.inj hv
        subst hx
        have hp : (0 : ℝ) < pIni - 0.5 :=
          lt_of_le_of_ne (by linarith) (Ne.symm h3)
        have hbase : (0 : ℝ) ≤ 0.5 / (pIni - 0.5) := by positivity
        exact mul_nonneg ht (Real.rpow_nonneg hbase _)
    · rw [if_neg h2] at hv
      exact (Option.some.inj hv).le
  · rw [if_neg h1] at hv
    by_cases h4 : max pIni pEnd < 0.5
    · rw [if_pos h4] at hv
      exact (Option.some.inj hv).le
    · rw [if_neg h4] at hv
      by_cases h5 : max pIni pEnd - min pIni pEnd = 0
      · rw [if_pos h5] at hv
        exact absurd hv (by simp)
      · rw [if_neg h5] at hv
        by_cases h6 : max 0.5 pEnd - max 0.5 pIni = 0
        · rw [if_pos h6] at hv
          exact absurd hv (by simp)
        · rw [if_neg h6] at hv
          have hx := Option.some.inj hv
          subst hx
          have hm_lt : min pIni pEnd < max pIni pEnd :=
            lt_of_le_of_ne min_le_max (fun h => h5 (by rw [h]; ring))
          have hMm : (0 : ℝ) < max pIni pEnd - min pIni pEnd := by linarith
          have hM5 : (0.5 : ℝ) ≤ max pIni pEnd := not_lt.mp h4
          have hLle : (if min pIni pEnd < 0.5 then (0.5 : ℝ) else min pIni pEnd) ≤
              max pIni pEnd := by
            split_ifs with hc
            · exact hM5
            · exact min_le_max
          have hfrac : (0 : ℝ) ≤
              (max pIni pEnd -
                (if min pIni pEnd < 0.5 then (0.5 : ℝ) else min pIni pEnd)) /
              (max pIni pEnd - min pIni pEnd) :=
            div_nonneg (by linarith) (le_of_lt hMm)
          have hC : (0 : ℝ) ≤ 3 * (segTime *
              ((max pIni pEnd -
                  (if min pIni pEnd < 0.5 then (0.5 : ℝ) else min pIni pEnd)) /
                (max pIni pEnd - min pIni pEnd))) / 11 :=
            div_nonneg (mul_nonneg (by norm_num) (mul_nonneg ht hfrac))
              (by norm_num)
          have hI5 : (0.5 : ℝ) ≤ max 0.5 pIni := le_max_left _ _
          have hE5 : (0.5 : ℝ) ≤ max 0.5 pEnd := le_max_left _ _
          rcases (sub_ne_zero.mp h6).lt_or_lt with hlt | hgt
          · have hAB : ((max 0.5 pEnd - 0.5) / 0.5) ^ ((11 : ℝ) / 6) ≤
                ((max 0.5 pIni - 0.5) / 0.5) ^ ((11 : ℝ) / 6) := by
              apply Real.rpow_le_rpow (div_nonneg (by linarith) (by norm_num))
                _ (by norm_num)
              exact (div_le_div_iff_of_pos_right (by norm_num)).mpr (by linarith)
            have hnum : 3 * (segTime *
                ((max pIni pEnd -
                    (if min pIni pEnd < 0.5 then (0.5 : ℝ) else min pIni pEnd)) /
                  (max pIni pEnd - min pIni pEnd))) / 11 *
                (((max 0.5 pEnd - 0.5) / 0.5) ^ ((11 : ℝ) / 6) -
                  ((max 0.5 pIni - 0.5) / 0.5) ^ ((11 : ℝ) / 6)) ≤ 0 := by
              have h := mul_le_mul_of_nonneg_left (sub_nonpos.mpr hAB) hC
              simpa using h
            exact div_nonneg_of_nonpos hnum (by linarith)
          · have hAB : ((max 0.5 pIni - 0.5) / 0.5) ^ ((11 : ℝ) / 6) ≤
                ((max 0.5 pEnd - 0.5) / 0.5) ^ ((11 : ℝ) / 6) := by
              apply Real.rpow_le_rpow (div_nonneg (by linarith) (by norm_num))
                _ (by norm_num)
              exact (div_le_div_iff_of_pos_right (by norm_num)).mpr (by linarith)
            have hnum : (0 : ℝ) ≤ 3 * (segTime *
                ((max pIni pEnd -
                    (if min pIni pEnd < 0.5 then (0.5 : ℝ) else min pIni pEnd)) /
                  (max pIni pEnd - min pIni pEnd))) / 11 *
                (((max 0.5 pEnd - 0.5) / 0.5) ^ ((11 : ℝ) / 6) -
                  ((max 0.5 pIni - 0.5) / 0.5) ^ ((11 : ℝ) / 6)) :=
              mul_nonneg hC (sub_nonneg.mpr hAB)
            exact div_nonneg hnum (by linarith)

/-- Helper: both toxicity cores return exactly 0 when both endpoint ppO2
values are below 0.5 bar. -/
theorem toxicity_zero_below_half (segTime dIni dEnd pIni pEnd : ℝ)
    (hi : pIni < 0.5) (he : pEnd < 0.5) :
    otuCore segTime dIni dEnd pIni pEnd = some 0 ∧
    cnsCore segTime dIni dEnd pIni pEnd = some 0 := by
  constructor
  · unfold otuCore
    by_cases h1 : dEnd = dIni
    · rw [if_pos h1, if_neg (not_le.mpr hi)]
    · rw [if_neg h1, if_pos (max_lt hi he)]
  · unfold cnsCore
    rw [if_pos (Or.inl hi)]

/-- C7 counterexample: a defined CNS step can be negative.  Descending from
6 m to 8 m on pure oxygen in a 0.1-minute segment, the starting ppO2 is 1.6
(table row m = -750, b = 1245, t_lim = 45) and the ending ppO2 is 1.8, past
the zero of the linear model; the closed form evaluates to
(log 105 - log 45) / (-1500) < 0, so the cumulative CNS total decreases at
this step, refuting the non-decreasing part of the claim. -/
theorem cns_step_negative :
    (calculate_cns [⟨100, 0⟩] 6 (1 / 10) 0 8 0).getD 0 < 0 ∧
    (calculate_cns [⟨100, 0⟩] 6 (1 / 10) 0 8 0).isSome = true := by
  have heval : calculate_cns [⟨100, 0⟩] 6 (1 / 10) 0 8 0 =
      some ((Real.log 105 - Real.log 45) / (-1500)) := by
    norm_num [calculate_cns, cnsCore, noaaLookup, noaaLookupGo, noaaCnsEquations,
      Gas.ppO2R, abs_of_neg, abs_of_pos]
  have hneg : (Real.log 105 - Real.log 45) / (-1500) < 0 := by
    apply div_neg_of_pos_of_neg
    · have hlt : Real.log 45 < Real.log 105 :=
        Real.log_lt_log (by norm_num) (by norm_num)
      linarith
    · norm_num
  rw [heval]
  exact ⟨by simpa using hneg, rfl⟩

/-- C7 amended: every defined OTU step contribution is nonnegative (so the
cumulative OTU total, which adds the step to the previous total, never
decreases), and both the OTU and the CNS step contributions are exactly 0
whenever the ppO2 at both segment endpoints is below 0.5 bar; the CNS step
itself can be negative (see the counterexample), so only the OTU cumulative
total is monotone in general. -/
theorem otu_cns_step_properties (tanks : List Gas)
    (prevDepth prevDurMin ipDepth : ℝ) (prevTank ipTank : ℕ)
    (hdur : 0 ≤ prevDurMin) :
    (∀ v, calculate_otu tanks prevDepth prevDurMin prevTank ipDepth ipTank =
        some v → 0 ≤ v) ∧
    (Gas.ppO2R (tanks.getD prevTank ⟨21, 0⟩) prevDepth < 0.5 →
      Gas.ppO2R (tanks.getD ipTank ⟨21, 0⟩) ipDepth < 0.5 →
      calculate_otu tanks prevDepth prevDurMin prevTank ipDepth ipTank = some 0 ∧
      calculate_cns tanks prevDepth prevDurMin prevTank ipDepth ipTank = some 0) := by
  constructor
  · intro v hv
    exact otuCore_nonneg prevDurMin prevDepth ipDepth _ _ hdur v hv
  · intro hi he
    exact toxicity_zero_below_half prevDurMin prevDepth ipDepth _ _ hi he

/-- C7 witness: a 5-second constant-depth surface segment on air has both
endpoint ppO2 at 0.21 < 0.5, and both step contributions are exactly 0. -/
theorem otu_cns_step_properties_witness :
    calculate_otu [⟨21, 0⟩] 0 (1 / 12) 0 0 0 = some 0 ∧
    calculate_cns [⟨21, 0⟩] 0 (1 / 12) 0 0 0 = some 0 := by
  have h := (otu_cns_step_properties [⟨21, 0⟩] 0 (1 / 12) 0 0 0 (by norm_num)).2
  refine h ?_ ?_ <;> norm_num [Gas.ppO2R]
